import Mathlib

/-!
Shallow embedding of the provider-handler core of the QianLu backend
(`src/providers/factory.py`, `src/providers/base.py`,
`src/providers/handlers/deepseek_ai.py`, `src/providers/handlers/silicon_flow.py`,
`src/providers/handlers/ollama_local.py`,
`src/providers/handlers/ollama_report_handler.py`,
`src/utils/retry.py`, `src/validation/error_handler.py`), together with
theorems settling the specification claims about it.

Modelling conventions:
* Python strings are Lean `String`s; `None`-able strings that are only ever
  tested for truthiness are collapsed to `String` with `""` playing the role
  of both `None` and the empty string (Python treats both as falsy at the
  relevant call sites).
* A `.env` file or the process environment is a finite key-value store
  (`Store`); Python `dict` update semantics (later duplicate key wins) are
  modelled by `dictMerge` / `dictInsert`.
* Python exceptions are values of `PyExc`; fallible code returns
  `Except PyExc A`.  Calling a constructor with a keyword argument that its
  `__init__` does not accept raises `TypeError` in Python; `pyNew` models
  exactly this keyword-binding step for the error taxonomy of
  `src/validation/error_handler.py`.
* `int(...)` / `float(...)` coercion is modelled for the plain decimal
  grammar (optional sign, digits, at most one dot).  Python additionally
  accepts exponents/inf/nan; no claim depends on those forms.
* Network I/O is a parameter: an adapter operation takes a transcript of
  what the transport did (status, body, decoded stream lines, or a raised
  client error) and returns the items the Python code would yield and/or
  the exception it would raise.  JSON decoding of a body or line is part of
  the transcript classification, standing for Python `json.loads`.
-/

/-! ## Python-ish basics -/

/-- Python whitespace characters used by `str.strip()` and `int()`/`float()`
argument stripping (space, tab, newline, carriage return, form feed,
vertical tab). -/
def pyWhitespace : List Char := [' ', '\t', '\n', '\r', Char.ofNat 11, Char.ofNat 12]

/-- `str.strip()` on a list of characters. -/
def pyStripChars (cs : List Char) : List Char :=
  ((cs.dropWhile (pyWhitespace.contains ·)).reverse.dropWhile (pyWhitespace.contains ·)).reverse

/-- Python `str.strip()` with no arguments. -/
def pyStrip (s : String) : String := String.mk (pyStripChars s.data)

/-- `a or b` on Python strings (first truthy operand; `""` is falsy). -/
def pyOrS (a b : String) : String := if a = "" then b else a

/-- Decidable equality for `Except` results. -/
instance {e a : Type} [DecidableEq e] [DecidableEq a] : DecidableEq (Except e a) := fun x y =>
  match x, y with
  | .ok u, .ok v =>
      if h : u = v then isTrue (by rw [h]) else isFalse (by intro hc; cases hc; exact h rfl)
  | .error u, .error v =>
      if h : u = v then isTrue (by rw [h]) else isFalse (by intro hc; cases hc; exact h rfl)
  | .ok _, .error _ => isFalse (by intro hc; cases hc)
  | .error _, .ok _ => isFalse (by intro hc; cases hc)

/-- ASCII lowering of one character (`str.lower()` on the ASCII range; the
identifiers and env keys handled by the factory are ASCII). -/
def asciiLowerChar (c : Char) : Char :=
  if 'A' ≤ c ∧ c ≤ 'Z' then Char.ofNat (c.toNat + 32) else c

/-- Python `str.lower()` (ASCII range). -/
def pyLower (s : String) : String := String.mk (s.data.map asciiLowerChar)

/-- ASCII raising of one character. -/
def asciiUpperChar (c : Char) : Char :=
  if 'a' ≤ c ∧ c ≤ 'z' then Char.ofNat (c.toNat - 32) else c

/-- Python `str.upper()` (ASCII range). -/
def pyUpper (s : String) : String := String.mk (s.data.map asciiUpperChar)

/-- Split a character list at the first occurrence of the pattern `pat`,
returning the part before it and the part after it. -/
def splitFirstSub (pat : List Char) : List Char → Option (List Char × List Char)
  | [] => if pat.isEmpty then some ([], []) else none
  | x :: xs =>
      if pat.isPrefixOf (x :: xs) then some ([], (x :: xs).drop pat.length)
      else (splitFirstSub pat xs).map (fun p => (x :: p.1, p.2))

/-- Replace every non-overlapping occurrence of `pat` (non-empty) by `sub`,
scanning left to right; `fuel` bounds the recursion. -/
def replaceChars (pat sub : List Char) : Nat → List Char → List Char
  | 0, cs => cs
  | fuel + 1, cs =>
      match splitFirstSub pat cs with
      | none => cs
      | some (pre, post) => pre ++ sub ++ replaceChars pat sub fuel post

/-- Python `s.replace(pat, sub)` for a non-empty pattern. -/
def pyReplace (s pat sub : String) : String :=
  String.mk (replaceChars pat.data sub.data (s.data.length + 1) s.data)

/-- Python `s.startswith(pre)`. -/
def strStartsWith (s pre : String) : Bool := pre.data.isPrefixOf s.data

/-- Python `s.endswith(suf)`. -/
def strEndsWith (s suf : String) : Bool := suf.data.reverse.isPrefixOf s.data.reverse

/-- Python `c in s` for a single character. -/
def strContainsChar (s : String) (c : Char) : Bool := s.data.contains c

/-- Digit-run value: `some n` iff the list is a non-empty run of ASCII digits. -/
def digitsVal? (cs : List Char) : Option Nat :=
  if cs ≠ [] ∧ cs.all Char.isDigit then
    some (cs.foldl (fun acc c => acc * 10 + (c.toNat - '0'.toNat)) 0)
  else none

/-- Python `int(s)`: strip whitespace, optional sign, non-empty digit run.
(Underscore separators and other exotica are not modelled.) -/
def pyInt? (s : String) : Option Int :=
  match pyStripChars s.data with
  | '+' :: rest => (digitsVal? rest).map Int.ofNat
  | '-' :: rest => (digitsVal? rest).map (fun n => -(n : Int))
  | cs => (digitsVal? cs).map Int.ofNat

/-- Split a character list at the first occurrence of `c`. -/
def splitAtChar (c : Char) : List Char → Option (List Char × List Char)
  | [] => none
  | x :: xs =>
      if x = c then some ([], xs)
      else (splitAtChar c xs).map (fun p => (x :: p.1, p.2))

/-- Python `float(s)` for the plain decimal grammar: strip, optional sign,
then `d+`, `d+.`, `.d+` or `d+.d+` (at most one dot, at least one digit).
The parsed value is represented exactly as
`(signed scaled mantissa, number of fraction digits)` — i.e. the rational
`mant / 10 ^ fracDigits` — because no claim performs float arithmetic or
compares floats across representations. -/
def pyFloat? (s : String) : Option (Int × Nat) :=
  let core : List Char → Option (Int × Nat) := fun cs =>
    match splitAtChar '.' cs with
    | none => (digitsVal? cs).map (fun n => ((n : Int), 0))
    | some (intPart, fracPart) =>
        if intPart.all Char.isDigit ∧ fracPart.all Char.isDigit ∧
           (intPart ≠ [] ∨ fracPart ≠ []) ∧ ¬ fracPart.contains '.' then
          let ip := (intPart.foldl (fun acc c => acc * 10 + (c.toNat - '0'.toNat)) 0 : Nat)
          let fp := (fracPart.foldl (fun acc c => acc * 10 + (c.toNat - '0'.toNat)) 0 : Nat)
          some (((ip * 10 ^ fracPart.length + fp : Nat) : Int), fracPart.length)
        else none
  match pyStripChars s.data with
  | '+' :: rest => core rest
  | '-' :: rest => (core rest).map (fun p => (-p.1, p.2))
  | cs => core cs

/-! ## Key-value stores with Python dict semantics -/

/-- A flat environment store (`.env` contents, `os.environ`): keys to string
values.  Keys are assumed unique, as in a Python dict. -/
abbrev Store := List (String × String)

/-- Dict lookup. -/
def dLookup (st : Store) (k : String) : Option String :=
  (st.find? (fun p => p.1 = k)).map (·.2)

/-- Python `\x7b**a, **b\x7d`: all keys of both, values of `b` winning on
duplicates (later unpacking overwrites earlier). -/
def dictMerge (a b : Store) : Store :=
  a.filter (fun p => (dLookup b p.1).isNone) ++ b

/-! ## Coerced scalar values -/

/-- A coerced configuration scalar (string / int / float / bool), as produced
by the factory's env-value coercion and by `get_current_param`. -/
inductive PVal where
  | str (s : String)
  | int (n : Int)
  | float (mant : Int) (fracDigits : Nat)   -- the value mant / 10 ^ fracDigits
  | bool (b : Bool)
  deriving DecidableEq, Repr

/-- Python truthiness of a coerced scalar. -/
def pvTruthy : PVal → Bool
  | .str s => s ≠ ""
  | .int n => n ≠ 0
  | .float mant _ => mant ≠ 0
  | .bool b => b

/-- Env-value coercion performed inline by `get_handler`
(`src/providers/factory.py`, lines 429-444): `"true"`/`"false"`
case-insensitively become booleans; otherwise try `float` if the text has a
dot, else `int`; on failure keep the string. -/
def coerceEnvValue (v : String) : PVal :=
  if pyLower v = "true" ∨ pyLower v = "false" then .bool (pyLower v = "true")
  else if strContainsChar v '.' then
    match pyFloat? v with
    | some q => .float q.1 q.2
    | none => .str v
  else
    match pyInt? v with
    | some n => .int n
    | none => .str v

/-- A resolved configuration: env-var name to coerced scalar. -/
abbrev Config := List (String × PVal)

/-- Lookup in a resolved configuration. -/
def cLookup (c : Config) (k : String) : Option PVal :=
  (c.find? (fun p => p.1 = k)).map (·.2)

/-- Python dict assignment `d[k] = v` (overwrites an existing key). -/
def cInsert (c : Config) (k : String) (v : PVal) : Config :=
  c.filter (fun p => p.1 ≠ k) ++ [(k, v)]

/-! ## Python exception classes (`src/validation/error_handler.py` plus the
builtins and library classes the handlers interact with) -/

/-- The exception classes relevant to the provider core.  Every class in
`src/validation/error_handler.py` derives directly from
`BaseText2AlpacaError` (notably, `APIConnectionError`, `APIResponseError`,
`APITimeoutError` and `APIResponseFormatError` are siblings of `APIError`,
not subclasses of it). -/
inductive PyClass where
  | exceptionC            -- builtin Exception
  | connectionError       -- builtin ConnectionError
  | timeoutError          -- builtin TimeoutError
  | typeError             -- builtin TypeError
  | valueError            -- builtin ValueError
  | clientError           -- aiohttp.ClientError
  | clientConnectorError  -- aiohttp.ClientConnectorError (an aiohttp.ClientError)
  | asyncioTimeoutError   -- asyncio.TimeoutError
  | retryErrorT           -- tenacity.RetryError
  | baseT2A               -- BaseText2AlpacaError
  | configurationError
  | apiConnectionError
  | apiResponseError
  | apiCallError
  | validationErrorT2A
  | apiResponseFormatError
  | apiTimeoutError
  | apiError
  deriving DecidableEq, Repr

/-- Immediate superclass, `none` for the root `Exception`.  (Multiple
inheritance of the aiohttp classes is collapsed to the parent that matters
for the `except` clauses appearing in the handlers.) -/
def PyClass.parent : PyClass → Option PyClass
  | .exceptionC => none
  | .connectionError => some .exceptionC      -- via OSError, not distinguished here
  | .timeoutError => some .exceptionC
  | .typeError => some .exceptionC
  | .valueError => some .exceptionC
  | .clientError => some .exceptionC
  | .clientConnectorError => some .clientError
  | .asyncioTimeoutError => some .exceptionC
  | .retryErrorT => some .exceptionC
  | .baseT2A => some .exceptionC
  | .configurationError => some .baseT2A
  | .apiConnectionError => some .baseT2A
  | .apiResponseError => some .baseT2A
  | .apiCallError => some .baseT2A
  | .validationErrorT2A => some .baseT2A
  | .apiResponseFormatError => some .baseT2A
  | .apiTimeoutError => some .baseT2A
  | .apiError => some .baseT2A

/-- Superclass chain walk with explicit fuel (the hierarchy has depth < 5). -/
def ancestorOf (fuel : Nat) (c target : PyClass) : Bool :=
  match fuel with
  | 0 => false
  | fuel + 1 =>
      if c = target then true
      else match c.parent with
        | some p => ancestorOf fuel p target
        | none => false

/-- Python `isinstance(e, target)` for an exception of class `c`. -/
def isInstance (c target : PyClass) : Bool := ancestorOf 8 c target

/-- A Python exception value: its class and its rendered message. -/
structure PyExc where
  cls : PyClass
  msg : String
  deriving DecidableEq, Repr

/-- Keyword parameters accepted by each taxonomy constructor, read off the
`__init__` signatures in `src/validation/error_handler.py`. -/
def acceptedKwargs : PyClass → List String
  | .configurationError => ["message", "details"]
  | .apiConnectionError => ["provider_name", "details"]
  | .apiResponseError => ["provider_name", "status_code", "response_body", "details"]
  | .apiCallError => ["message", "provider_name", "details"]
  | .validationErrorT2A => ["message", "validation_details"]
  | .apiResponseFormatError => ["provider_name", "details"]
  | .apiTimeoutError =>
      ["message", "timeout_value", "timeout_seconds", "provider", "provider_name", "details"]
  | .apiError => ["message", "provider_name", "details"]
  | _ => []

/-- Python keyword binding for a taxonomy constructor call: if any keyword
used at the call site is not accepted by the target `__init__`, the call
itself raises `TypeError`; otherwise the exception object is built with the
given rendered message. -/
def pyNew (c : PyClass) (kwargs : List String) (msg : String) : Except PyExc PyExc :=
  match kwargs.find? (fun k => ¬ (acceptedKwargs c).contains k) with
  | some bad =>
      .error ⟨.typeError, "TypeError: unexpected keyword argument " ++ bad⟩
  | none => .ok ⟨c, msg⟩

/-- `raise Cls(kwargs...)`: the statement raises the constructed exception,
or the `TypeError` produced while constructing it. -/
def pyRaise {A : Type} (r : Except PyExc PyExc) : Except PyExc A :=
  match r with
  | .ok e => .error e
  | .error e => .error e

/-- A value passed to a tenacity retry predicate: either an exception or a
`tenacity.RetryCallState` (which wraps the outcome but is not itself an
exception). -/
inductive PyVal where
  | excV (e : PyExc)
  | callState (outcome : PyExc)
  deriving DecidableEq, Repr

/-- `is_retryable_exception` from `src/utils/retry.py`:
`isinstance(exception, (ConnectionError, TimeoutError, APIError))`.
When tenacity invokes it as the `retry=` predicate it receives a
`RetryCallState`, which is not an instance of any of those classes. -/
def is_retryable_exception (v : PyVal) : Bool :=
  match v with
  | .excV e =>
      isInstance e.cls .connectionError || isInstance e.cls .timeoutError ||
        isInstance e.cls .apiError
  | .callState _ => false

/-! ## JSON values (results of Python `json.loads`) -/

/-- A decoded JSON value. -/
inductive Jv where
  | obj (fields : List (String × Jv))
  | arr (xs : List Jv)
  | str (s : String)
  | num (n : Int)
  | bool (b : Bool)
  | null
  deriving Repr

/-- Lookup in a decoded JSON object field list. -/
def jLookup (fields : List (String × Jv)) (k : String) : Option Jv :=
  (fields.find? (fun p => p.1 = k)).map (·.2)

/-- Python truthiness of a decoded JSON value. -/
def jvTruthy : Jv → Bool
  | .obj fields => !fields.isEmpty
  | .arr xs => !xs.isEmpty
  | .str s => s ≠ ""
  | .num n => n ≠ 0
  | .bool b => b
  | .null => false

/-! ## Credential/Parameter Resolver: `BaseAPIHandler.get_current_param`
(`src/providers/base.py`, lines 29-98) -/

/-- `get_current_param(param_name, param_type, default_value)`.

`metaEnvPref` is `get_provider_metadata(provider_name).get("env_prefix")`
(`none` when the provider has no metadata); `dotenvStore` is the contents of
the `.env` file located by `find_dotenv` (`none` when no file is found).
The source returns `default_value` when the metadata, the env-var key, or
the `.env` file is missing; looks up `PFX + NAME` then `PFX + DEFAULT_NAME`
(upper-cased name); coerces per `param_type` with fallback to
`default_value` on int/float failure; and for `bool` returns membership of
the lowercased value in true/1/yes/y/on. -/
def get_current_param (metaEnvPref : Option String) (dotenvStore : Option Store)
    (param_name : String) (param_type : Option String) (default_value : PVal) : PVal :=
  match metaEnvPref with
  | none => default_value
  | some envPref =>
    if envPref = "" then default_value
    else
      match dotenvStore with
      | none => default_value
      | some env_values =>
        let runtimeKey := envPref ++ pyUpper param_name
        let defaultKey := envPref ++ "DEFAULT_" ++ pyUpper param_name
        match (dLookup env_values runtimeKey).orElse (fun _ => dLookup env_values defaultKey) with
        | none => default_value
        | some value =>
          match param_type with
          | some "int" =>
              match pyInt? value with
              | some n => .int n
              | none => default_value
          | some "float" =>
              match pyFloat? value with
              | some q => .float q.1 q.2
              | none => default_value
          | some "bool" =>
              .bool ((["true", "1", "yes", "y", "on"].contains (pyLower value) : Bool))
          | _ => .str value

/-! ## Provider Registry / Factory (`src/providers/factory.py`) -/

/-- Name normalization used by `APIHandlerFactory.standardize_provider_name`
(line 87) and by the alias registration loop of `initialize_handlers`
(line 325): lowercase, **remove** spaces, replace hyphens with underscores. -/
def normalizeName (s : String) : String :=
  pyReplace (pyReplace (pyLower s) " " "") "-" "_"

/-- Modelled from the spec: the normalization step as §4.4 words it
("lowercase; replace spaces and hyphens with underscore"), for comparison
with the `normalizeName` translated from the source. -/
def specNormalizeName (s : String) : String :=
  pyReplace (pyReplace (pyLower s) " " "_") "-" "_"

/-- Registry metadata for one provider, as consumed by the module-level
`get_handler` (only the fields it reads). -/
structure ProviderMeta where
  standardName : String
  envPref : Option String
  deriving DecidableEq, Repr

/-- The populated module-level factory state: registered handler names
(`_handlers` keys), the normalized-alias map (`_provider_aliases`), the
metadata map values (`_provider_metadata_map.values()`), and whether
`_project_root` was determined. -/
structure FactoryState where
  handlers : List String
  aliases : List (String × String)
  metas : List ProviderMeta
  projectRoot : Bool

/-- Alias map lookup (`_provider_aliases.get(...)`). -/
def aLookup (aliases : List (String × String)) (k : String) : Option String :=
  (aliases.find? (fun p => p.1 = k)).map (·.2)

/-- Alias-map insertion with "last registration wins" overwrite semantics
(`_provider_aliases[normalized_alias] = standard_name`). -/
def aInsert (aliases : List (String × String)) (k v : String) : List (String × String) :=
  aliases.filter (fun p => p.1 ≠ k) ++ [(k, v)]

/-- The handler/alias registration fragment of `initialize_handlers`
(`src/providers/factory.py`, lines 315-332), restricted to the name data:
register each entry's standard name and all of its normalized aliases,
later entries overwriting earlier alias registrations. -/
def registerProviders (entries : List (String × List String × Option String)) : FactoryState :=
  entries.foldl
    (fun st e =>
      let standardName := e.1
      let aliases := e.2.1
      { st with
        handlers := (st.handlers.filter (fun h => h ≠ standardName)) ++ [standardName],
        aliases := aliases.foldl (fun m al => aInsert m (normalizeName al) standardName) st.aliases,
        metas := (st.metas.filter (fun m => m.standardName ≠ standardName)) ++
          [⟨standardName, e.2.2⟩] })
    ⟨[], [], [], true⟩

/-- `APIHandlerFactory.standardize_provider_name` (lines 65-110): empty names
and unresolvable names raise `ValueError`; otherwise the normalized name is
resolved through the alias map first, then against the registered standard
names. -/
def standardize_provider_name (st : FactoryState) (provider : String) :
    Except PyExc String :=
  if provider = "" then .error ⟨.valueError, "provider name must not be empty"⟩
  else
    match aLookup st.aliases (normalizeName provider) with
    | some standardName => .ok standardName
    | none =>
        if st.handlers.contains (normalizeName provider) then .ok (normalizeName provider)
        else .error ⟨.valueError, "unknown provider: " ++ provider⟩

/-- The environment snapshot built inside the module-level `get_handler`
(`src/providers/factory.py`, line 425):
`\x7b**dotenv_values(dotenv_path), **os.environ\x7d` — the `.env` file
contents merged with the process environment, the **process environment**
winning on duplicate keys. -/
def allEnvVars (dotenvStore procEnviron : Store) : Store :=
  dictMerge dotenvStore procEnviron

/-- The prefix-filtered, coerced configuration built by `get_handler`
(lines 428-448): every merged env entry whose key starts with the provider's
env prefix, its value coerced by `coerceEnvValue`. -/
def resolveProviderConfig (envPref : String) (dotenvStore procEnviron : Store) : Config :=
  (allEnvVars dotenvStore procEnviron).filterMap
    (fun p => if strStartsWith p.1 envPref then some (p.1, coerceEnvValue p.2) else none)

/-- Module-level `get_handler` (`src/providers/factory.py`, lines 373-461).

`construct` stands for `handler_class(config)`; its exceptions are caught
and turned into `None` (line 459-461), as are all the earlier failure
branches of the function, which return `None` rather than raise.  The
normalization on line 395 lowercases and replaces hyphens only (no space
handling, unlike `standardize_provider_name`). -/
def moduleGetHandler {α : Type} (st : FactoryState) (dotenvStore procEnviron : Store)
    (construct : Config → Except PyExc α) (providerNameOrAlias : String) :
    Except PyExc (Option α) :=
  if ¬ st.projectRoot then .ok none
  else
    let normalized := pyReplace (pyLower providerNameOrAlias) "-" "_"
    let standardName := (aLookup st.aliases normalized).getD normalized
    if ¬ st.handlers.contains standardName then .ok none
    else
      match st.metas.find? (fun m => m.standardName = standardName) with
      | none => .ok none
      | some provider_meta =>
        let config : Config :=
          match provider_meta.envPref with
          | some p => if p ≠ "" then resolveProviderConfig p dotenvStore procEnviron else []
          | none => []
        let config := cInsert config "provider_name" (.str standardName)
        match construct config with
        | .ok h => .ok (some h)
        | .error _ => .ok none

/-! ## Tenacity retry semantics, as configured on
`DeepseekAIHandler._make_request` (`src/providers/handlers/deepseek_ai.py`,
lines 111-119): `stop=stop_after_attempt(3)`, `retry=is_retryable_exception`,
`reraise=True`.  Tenacity invokes the `retry=` callable with the
`RetryCallState`, not with the raised exception; when the callable answers
`false` the failure propagates immediately, and when attempts are exhausted
`reraise=True` re-raises the last exception instead of `RetryError`. -/

/-- One tenacity-controlled run: `attemptNo` is the 1-based attempt counter,
`remaining` the attempts the stop condition still allows.  Returns the final
outcome and the number of attempts actually executed. -/
def tenacityGo {A : Type} (pred : PyVal → Bool) (reraise : Bool)
    (body : Nat → Except PyExc A) : Nat → Nat → (Except PyExc A) × Nat
  | attemptNo, remaining =>
    match body attemptNo with
    | .ok a => (.ok a, attemptNo)
    | .error e =>
      if ¬ pred (.callState e) then (.error e, attemptNo)
      else
        match remaining with
        | 0 => ((if reraise then .error e else .error ⟨.retryErrorT, "RetryError"⟩), attemptNo)
        | 1 => ((if reraise then .error e else .error ⟨.retryErrorT, "RetryError"⟩), attemptNo)
        | r + 2 => tenacityGo pred reraise body (attemptNo + 1) (r + 1)

/-- A `@retry(stop=stop_after_attempt(stopAfter), retry=pred, reraise=...)`
decorated call, with the attempt count it performed. -/
def tenacityRetry {A : Type} (stopAfter : Nat) (pred : PyVal → Bool) (reraise : Bool)
    (body : Nat → Except PyExc A) : (Except PyExc A) × Nat :=
  tenacityGo pred reraise body 1 stopAfter

/-! ## `DeepseekAIHandler` (`src/providers/handlers/deepseek_ai.py`) -/

/-- `rstrip('/')`. -/
def pyRstripSlash (s : String) : String :=
  String.mk ((s.data.reverse.dropWhile (· = '/')).reverse)

/-- The constructor-time state of `DeepseekAIHandler.__init__`
(lines 18-39). -/
structure DeepseekHandler where
  providerName : String
  apiKey : Option PVal
  endpoint : String
  defaultModel : Option PVal
  dTemperature : PVal
  dTopP : PVal
  dMaxTokens : PVal
  requestTimeout : PVal
  deriving Repr

/-- `DeepseekAIHandler.__init__(config)`: read the prefixed keys out of the
flat config with the hard defaults of the source, and strip a trailing
slash off a truthy endpoint.  (A non-string endpoint value is kept as its
string rendering is never inspected by the claims; the source would store
the coerced value unchanged.) -/
def mkDeepseekHandler (config : Config) : DeepseekHandler :=
  let endpointRaw :=
    match cLookup config "DEEPSEEK_ENDPOINT" with
    | some (.str s) => s
    | some _ => ""
    | none => "https://api.deepseek.com/v1"
  { providerName :=
      match cLookup config "provider_name" with
      | some (.str s) => s
      | _ => "deepseek_ai"
    apiKey := cLookup config "DEEPSEEK_API_KEY"
    endpoint := if endpointRaw ≠ "" ∧ strEndsWith endpointRaw "/" then pyRstripSlash endpointRaw else endpointRaw
    defaultModel := cLookup config "DEEPSEEK_DEFAULT_MODEL"
    dTemperature := (cLookup config "DEEPSEEK_TEMPERATURE").getD (.float 7 1)
    dTopP := (cLookup config "DEEPSEEK_TOP_P").getD (.float 10 1)
    dMaxTokens := (cLookup config "DEEPSEEK_MAX_TOKENS").getD (.int 2000)
    requestTimeout := (cLookup config "DEEPSEEK_REQUEST_TIMEOUT").getD (.int 30) }

/-- What the HTTP transport did for one attempt of a (non-streaming)
Deepseek request: a connection failure, a timeout, another aiohttp client
error, or a completed response with its status, body text and the
`json.loads` outcome for the body. -/
inductive DSTransport where
  | connectorError (m : String)     -- aiohttp.ClientConnectorError
  | timeoutE                        -- asyncio.TimeoutError
  | clientError (m : String)        -- other aiohttp.ClientError
  | resp (status : Nat) (bodyText : String) (bodyJson : Option Jv)

/-- One un-retried execution of `DeepseekAIHandler._make_request`
(lines 120-154).  `_get_headers` raises `ConfigurationError` for a falsy
API key; a non-200 status raises `APIResponseError` (all keywords valid); a
200 body that fails JSON decoding attempts to raise
`APIResponseFormatError(message=..., response_body=..., provider=...)`,
whose `__init__` accepts none of those keywords; a connection error
attempts `APIConnectionError(message=..., detail=..., provider=...)` and an
aiohttp client error attempts `APIError(message=..., detail=..., provider=...)`,
both with keywords their `__init__` rejects. -/
def deepseekMakeRequestOnce (h : DeepseekHandler) (t : DSTransport) : Except PyExc Jv :=
  if ¬ (h.apiKey.map pvTruthy).getD false then
    .error ⟨.configurationError, "API key (DEEPSEEK_API_KEY) is missing for DeepseekAIHandler headers."⟩
  else
    match t with
    | .resp status bodyText bodyJson =>
        if status ≠ 200 then
          pyRaise (pyNew .apiResponseError
            ["provider_name", "status_code", "response_body", "details"]
            ("API Response Error (" ++ h.providerName ++ ") Status Code: " ++ toString status))
        else
          match bodyJson with
          | some j => .ok j
          | none =>
              pyRaise (pyNew .apiResponseFormatError
                ["message", "response_body", "provider"]
                ("Invalid JSON in successful response: " ++ bodyText))
    | .connectorError m =>
        pyRaise (pyNew .apiConnectionError ["message", "detail", "provider"]
          ("Network connection error: " ++ m))
    | .timeoutE =>
        pyRaise (pyNew .apiTimeoutError ["message", "timeout_value", "provider"]
          "Request timed out")
    | .clientError m =>
        pyRaise (pyNew .apiError ["message", "detail", "provider"]
          ("API client error: " ++ m))

/-- `DeepseekAIHandler._make_request` as invoked through its tenacity
decorator: up to 3 attempts, `is_retryable_exception` as `retry=`,
`reraise=True`.  `transports n` is what the transport does on attempt `n`.
Returns the outcome together with the number of attempts performed. -/
def deepseekMakeRequest (h : DeepseekHandler) (transports : Nat → DSTransport) :
    (Except PyExc Jv) × Nat :=
  tenacityRetry 3 is_retryable_exception true (fun n => deepseekMakeRequestOnce h (transports n))

/-- The `choices` extraction of `DeepseekAIHandler.generate_text`
(lines 194-209): concatenate every `choices[i].message.content`, return the
stripped text if non-empty, otherwise raise
`APIResponseFormatError(message=..., response_body=..., provider=...)`
(keywords its `__init__` rejects).  String-typed content only is
concatenated; a non-string content would raise at `+=` in Python and no
claim exercises that. -/
def deepseekParseChoices (result : Jv) : Except PyExc String :=
  let bad : Except PyExc String :=
    pyRaise (pyNew .apiResponseFormatError ["message", "response_body", "provider"]
      "Unexpected response format")
  match result with
  | .obj fields =>
      match jLookup fields "choices" with
      | some (.arr choices) =>
          if choices.isEmpty then bad
          else
            let content := choices.foldl
              (fun acc ch =>
                match ch with
                | .obj cf =>
                    match jLookup cf "message" with
                    | some (.obj mf) =>
                        match jLookup mf "content" with
                        | some (.str s) => acc ++ s
                        | _ => acc
                    | _ => acc
                | _ => acc) ""
            if content ≠ "" then .ok (pyStrip content) else bad
      | _ => bad
  | _ => bad

/-- The `except` chain of `DeepseekAIHandler.generate_text` (lines 211-219):
`except APIError: raise e` (only instances of the `APIError` class itself,
since the taxonomy classes are siblings); `except RetryError:` attempts
`APIError(msg, detail=..., provider=...)` with rejected keywords; `except
Exception:` wraps into a generic `APIError` (all keywords valid). -/
def deepseekExceptChain (_providerName : String) (r : Except PyExc String) :
    Except PyExc String :=
  match r with
  | .ok s => .ok s
  | .error e =>
      if isInstance e.cls .apiError then .error e
      else if isInstance e.cls .retryErrorT then
        pyRaise (pyNew .apiError ["detail", "provider"] ("API request failed after retries: " ++ e.msg))
      else
        pyRaise (pyNew .apiError ["message", "provider_name", "details"]
          ("Unexpected internal error: " ++ e.msg))

/-- `DeepseekAIHandler.generate_text` (lines 159-219), with the parameter
resolution elided into the request payload (it does not affect the
control flow modelled here): check for a resolvable model, run the retried
request, extract the content, and translate failures through the except
chain.  Returns the result and the number of transport attempts made. -/
def deepseekGenerateText (h : DeepseekHandler) (transports : Nat → DSTransport)
    (modelArg : String) : (Except PyExc String) × Nat :=
  let targetModel : Option PVal :=
    if modelArg ≠ "" then some (.str modelArg) else h.defaultModel
  if ¬ (targetModel.map pvTruthy).getD false then
    (.error ⟨.configurationError,
       "No model specified and no default_model configured for " ++ h.providerName ++ "."⟩, 0)
  else
    let (res, attempts) := deepseekMakeRequest h transports
    let body : Except PyExc String :=
      match res with
      | .ok j => deepseekParseChoices j
      | .error e => .error e
    (deepseekExceptChain h.providerName body, attempts)

/-! ## `OllamaReportHandler` (`src/providers/handlers/ollama_report_handler.py`) -/

/-- Drop leading regex-`\s` whitespace. -/
def dropPyWs (cs : List Char) : List Char := cs.dropWhile (pyWhitespace.contains ·)

/-- The substitution loop of `re.sub(r"<think>.*?</think>\s*", "", text,
flags=re.DOTALL)`: scan left to right; each match starts at a literal
`<think>`, extends non-greedily to the first following `</think>` and
swallows trailing whitespace; if a `<think>` has no `</think>` anywhere
after it, there is no further match and the text is left as it is.
`fuel` bounds the recursion (each match consumes at least the two tags). -/
def rmThinkGo : Nat → List Char → List Char
  | 0, cs => cs
  | fuel + 1, cs =>
      match splitFirstSub "<think>".data cs with
      | none => cs
      | some (pre, rest) =>
          match splitFirstSub "</think>".data rest with
          | none => cs
          | some (_, post) => pre ++ rmThinkGo fuel (dropPyWs post)

/-- `OllamaReportHandler._remove_think_tags` (lines 30-36): the `re.sub`
above followed by `.strip()`; the empty string is returned unchanged. -/
def removeThinkTags (text : String) : String :=
  if text = "" then ""
  else pyStrip (String.mk (rmThinkGo text.data.length text.data))

/-- Integer field of a decoded JSON object with a default
(`ollama_response.get(k, 0)`; non-integer values are not exercised by any
claim and fall back to the default here). -/
def jIntD (fields : List (String × Jv)) (k : String) (d : Int) : Int :=
  match jLookup fields k with
  | some (.num n) => n
  | _ => d

/-- The OpenAI-shaped result assembled by `OllamaReportHandler.chat`
(lines 115-135), restricted to its deterministic fields (the synthesized
response id and `created` timestamp are wall-clock dependent and carried by
no claim). -/
structure ChatOut where
  role : String
  content : String
  finishReason : String
  promptTokens : Int
  completionTokens : Int
  totalTokens : Int
  deriving DecidableEq, Repr

/-- `OllamaReportHandler.chat` (lines 38-153) applied to the decoded
response `resp` delivered by `_make_request`: an empty or non-dict response
and a response without a `message` object both attempt
`APIResponseFormatError(message=..., provider_name=..., response_body=...)`
(whose `__init__` rejects `message` and `response_body`, so the raise
itself becomes `TypeError`, which the trailing `except Exception` wraps
into a generic `APIError`); otherwise the message content is cleaned with
`_remove_think_tags` and repackaged. -/
def ollamaReportChat (resp : Jv) : Except PyExc ChatOut :=
  let formatRaise : Except PyExc ChatOut :=
    pyRaise (pyNew .apiResponseFormatError ["message", "provider_name", "response_body"]
      "Ollama response was empty, not a dictionary, or missing the message object.")
  let body : Except PyExc ChatOut :=
    match resp with
    | .obj fields =>
        if fields.isEmpty then formatRaise
        else
          match jLookup fields "message" with
          | some (.obj mf) =>
              let rawContent :=
                match jLookup mf "content" with
                | some (.str s) => s
                | _ => ""
              let role :=
                match jLookup mf "role" with
                | some (.str s) => s
                | _ => "assistant"
              let doneV := (jLookup fields "done").getD (Jv.bool true)
              .ok { role := role
                    content := removeThinkTags rawContent
                    finishReason := if jvTruthy doneV then "stop" else "length"
                    promptTokens := jIntD fields "prompt_eval_count" 0
                    completionTokens := jIntD fields "eval_count" 0
                    totalTokens := jIntD fields "prompt_eval_count" 0 + jIntD fields "eval_count" 0 }
          | _ => formatRaise
    | _ => formatRaise
  match body with
  | .ok r => .ok r
  | .error e =>
      if isInstance e.cls .apiError then .error e
      else
        pyRaise (pyNew .apiError ["message", "provider_name", "details"]
          ("Ollama Report Handler chat failed: " ++ e.msg))

/-! ## Streaming adapters.

An async generator is embedded as a function from a transport transcript to
the list of items it yields plus the exception (if any) with which it
terminates after the last yield.  Each incoming line is classified by the
branch the source takes on it (blank / non-`data:` / `[DONE]` / decoded
JSON / undecodable), standing for the decode-and-test steps of the code. -/

/-- The exception actually raised by a `raise Cls(kwargs...)` statement
(the constructed exception, or the `TypeError` from bad keywords). -/
def excOf (r : Except PyExc PyExc) : PyExc :=
  match r with
  | .ok e => e
  | .error e => e

/-- `\x7b"error": msg\x7d` chunk. -/
def errObj (m : String) : Jv := Jv.obj [("error", Jv.str m)]

/-! ### `SiliconFlowHandler.stream_chat`
(`src/providers/handlers/silicon_flow.py`, lines 314-458) -/

/-- One decoded line of an SSE body, classified as the source branches on
it: falsy/blank, not `data:`-prefixed, the literal `data: [DONE]`, a
`data:` line whose payload decodes to `j`, or a `data:` line with an
undecodable payload. -/
inductive SFLine where
  | empty
  | nonData (s : String)
  | doneL
  | dataJ (j : Jv)
  | dataBad (s : String)

/-- An exception interrupting the body iteration after the listed lines. -/
inductive SFInterrupt where
  | clientErr (m : String)          -- aiohttp.ClientError
  | timeoutI                        -- asyncio.TimeoutError
  | otherE (e : PyExc)              -- anything else

/-- The transport transcript of one SiliconFlow streaming request. -/
inductive SFTransport where
  | connError (m : String)          -- aiohttp.ClientError at request time
  | timeoutT                        -- asyncio.TimeoutError at request time
  | resp (status : Nat) (errText : String) (lines : List SFLine)
      (interrupt : Option SFInterrupt)

/-- The `\x7b"status": "done"\x7d` terminal marker SiliconFlow yields on
`data: [DONE]` (line 425). -/
def sfDoneMarker : Jv := Jv.obj [("status", Jv.str "done")]

/-- The body loop of `SiliconFlowHandler.stream_chat` (lines 418-434):
yield each decoded `data:` chunk, skip blank/non-data/undecodable lines,
and on `data: [DONE]` yield the done marker and `break` (second component:
whether the loop was left via `break`). -/
def sfProcessLines : List SFLine → List Jv × Bool
  | [] => ([], false)
  | .empty :: rest => sfProcessLines rest
  | .nonData _ :: rest => sfProcessLines rest
  | .doneL :: _ => ([sfDoneMarker], true)
  | .dataJ j :: rest =>
      let p := sfProcessLines rest
      (j :: p.1, p.2)
  | .dataBad _ :: rest => sfProcessLines rest

/-- `SiliconFlowHandler.stream_chat`: a falsy model or endpoint yields a
bare `\x7b"error": ...\x7d` chunk and returns; a non-200 response raises
`APIResponseError`, which the trailing `except Exception` re-wraps into a
generic `APIError`; an `aiohttp.ClientError` attempts
`APIConnectionError(message=..., provider_name=..., details=...)` whose
`__init__` rejects `message` (so `TypeError` is raised); a timeout raises
`APITimeoutError` (all keywords valid); a 200 stream yields its chunks and
yields the done marker only when a `data: [DONE]` line is reached. -/
def siliconFlowStreamChat (endpoint defaultModel modelArg : String) (t : SFTransport) :
    List Jv × Option PyExc :=
  let targetModel := pyStrip (pyOrS modelArg defaultModel)
  if targetModel = "" then
    ([errObj "No model specified and no default_model configured for silicon_flow streaming."],
     none)
  else if endpoint = "" then
    ([errObj "SiliconFlow Endpoint is not configured."], none)
  else
    let connectionRaise : PyExc :=
      excOf (pyNew .apiConnectionError ["message", "provider_name", "details"]
        "Connection error")
    let timeoutRaise : PyExc :=
      excOf (pyNew .apiTimeoutError ["message", "provider_name", "timeout_seconds"]
        "Stream request timed out")
    match t with
    | .connError _ => ([], some connectionRaise)
    | .timeoutT => ([], some timeoutRaise)
    | .resp status _ lines interrupt =>
        if status ≠ 200 then
          let respErr :=
            excOf (pyNew .apiResponseError
              ["provider_name", "status_code", "response_body", "details"]
              ("Stream chat error: HTTP " ++ toString status))
          ([], some (excOf (pyNew .apiError ["message", "provider_name", "details"]
            ("Unexpected streaming error: " ++ respErr.msg))))
        else
          let p := sfProcessLines lines
          if p.2 then (p.1, none)
          else
            match interrupt with
            | none => (p.1, none)
            | some (.clientErr _) => (p.1, some connectionRaise)
            | some .timeoutI => (p.1, some timeoutRaise)
            | some (.otherE e) =>
                (p.1, some (excOf (pyNew .apiError ["message", "provider_name", "details"]
                  ("Unexpected streaming error: " ++ e.msg))))

/-! ### `OllamaLocalHandler.stream_chat`
(`src/providers/handlers/ollama_local.py`, lines 414-571) -/

/-- One raw NDJSON line of an Ollama streaming body, classified as the
source branches on it.  (The protocol delivers JSON objects; non-object
payloads are not modelled, and no claim depends on them.) -/
inductive OLine where
  | emptyB                               -- falsy raw line
  | blankAfterStrip                      -- strips to ""
  | jsonO (fields : List (String × Jv))  -- decodes to a dict
  | badJson (s : String)                 -- decode error, stripped text s

/-- An exception interrupting the Ollama body iteration. -/
inductive OInterrupt where
  | clientErr (m : String)               -- aiohttp.ClientError
  | otherE (e : PyExc)                   -- anything else (propagates)

/-- The transport transcript of one Ollama streaming request. -/
inductive OTransport where
  | connError (m : String)               -- aiohttp.ClientError at request time
  | resp (status : Nat) (errText : String) (lines : List OLine)
      (interrupt : Option OInterrupt)

/-- The first chunk Ollama always yields (line 480). -/
def ollamaRoleChunk : Jv :=
  Jv.obj [("choices", Jv.arr [Jv.obj [("delta", Jv.obj [("role", Jv.str "assistant")])]])]

/-- An OpenAI-style content chunk (lines 536, 553, 561). -/
def mkDeltaContent (c : Jv) : Jv :=
  Jv.obj [("choices", Jv.arr [Jv.obj [("delta", Jv.obj [("content", c)])]])]

/-- The `\x7b"done": True\x7d` marker (lines 544 and 571). -/
def ollamaDoneMarker : Jv := Jv.obj [("done", Jv.bool true)]

/-- Fallback extraction for an unexpected dict (lines 546-554): if any value
is truthy, yield the first non-empty string value as content. -/
def ollamaWeirdExtract (fields : List (String × Jv)) : List Jv :=
  if fields.any (fun p => jvTruthy p.2) then
    match fields.find? (fun p => match p.2 with | .str s => s ≠ "" | _ => false) with
    | some p => [mkDeltaContent p.2]
    | none => []
  else []

/-- The `done`/fallback tail of the per-line dispatch (lines 541-554): a
truthy `done` yields the inline done marker, otherwise the fallback
extraction runs. -/
def ollamaDoneOrWeird (fields : List (String × Jv)) : List Jv :=
  match jLookup fields "done" with
  | some d => if jvTruthy d then [ollamaDoneMarker] else ollamaWeirdExtract fields
  | none => ollamaWeirdExtract fields

/-- Per-line dispatch of the Ollama stream loop (lines 517-561): an
`error` key yields an error chunk; else `message.content` yields a content
chunk; else the done/fallback tail; an undecodable non-blank line is
yielded verbatim as content. -/
def ollamaProcessObj (fields : List (String × Jv)) : List Jv :=
  match jLookup fields "error" with
  | some v => [Jv.obj [("error", v)]]
  | none =>
      match jLookup fields "message" with
      | some (.obj mf) =>
          match jLookup mf "content" with
          | some c => [mkDeltaContent c]
          | none => ollamaDoneOrWeird fields
      | _ => ollamaDoneOrWeird fields

/-- The whole body loop over the delivered lines. -/
def ollamaProcessLines : List OLine → List Jv
  | [] => []
  | .emptyB :: rest => ollamaProcessLines rest
  | .blankAfterStrip :: rest => ollamaProcessLines rest
  | .jsonO fields :: rest => ollamaProcessObj fields ++ ollamaProcessLines rest
  | .badJson s :: rest =>
      (if s ≠ "" then [mkDeltaContent (Jv.str s)] else []) ++ ollamaProcessLines rest

/-- `OllamaLocalHandler.stream_chat`: a falsy model raises
`ConfigurationError` before anything is yielded (line 428); once the `try`
block is entered the role chunk is yielded, HTTP errors and client errors
yield `\x7b"error": ...\x7d` chunks, and the `finally` block yields the
`\x7b"done": True\x7d` marker on every exit path (line 571) — including
during the propagation of an exception, which then continues after the
marker has been delivered. -/
def ollamaStreamChat (defaultModel modelArg : String) (t : OTransport) :
    List Jv × Option PyExc :=
  let targetModel := pyStrip (pyOrS modelArg defaultModel)
  if targetModel = "" then
    ([], some ⟨.configurationError,
       "No model specified and no default_model configured for ollama_local."⟩)
  else
    match t with
    | .connError m =>
        ([ollamaRoleChunk, errObj ("Ollama API connection error: " ++ m), ollamaDoneMarker],
         none)
    | .resp status _ lines interrupt =>
        if status ≠ 200 then
          ([ollamaRoleChunk, errObj ("Ollama API error: HTTP " ++ toString status),
            ollamaDoneMarker], none)
        else
          let ys := ollamaProcessLines lines
          match interrupt with
          | none => ([ollamaRoleChunk] ++ ys ++ [ollamaDoneMarker], none)
          | some (.clientErr m) =>
              ([ollamaRoleChunk] ++ ys ++
                [errObj ("Ollama API connection error: " ++ m), ollamaDoneMarker], none)
          | some (.otherE e) =>
              ([ollamaRoleChunk] ++ ys ++ [ollamaDoneMarker], some e)


/-! ## Helper lemmas -/

/-- Looking up a key of `b` in `dictMerge a b` yields the `b` value
(`\x7b**a, **b\x7d` lets `b` win). -/
theorem dictMerge_lookup_right (a b : Store) (k : String) (v : String)
    (h : dLookup b k = some v) : dLookup (dictMerge a b) k = some v := by
  induction a with
  | nil =>
      show dLookup (List.filter _ [] ++ b) k = some v
      simpa using h
  | cons p as ih =>
      show dLookup (List.filter _ (p :: as) ++ b) k = some v
      rw [List.filter_cons]
      by_cases hkeep : ((dLookup b p.1).isNone : Bool) = true
      · rw [if_pos hkeep]
        have hpk : p.1 ≠ k := by
          intro he; rw [he, h] at hkeep; simp at hkeep
        show dLookup (p :: (List.filter _ as ++ b)) k = some v
        unfold dLookup
        rw [List.find?_cons_of_neg _ (by simpa using hpk)]
        exact ih
      · rw [if_neg hkeep]
        exact ih

/-- Looking up a key absent from `b` in `dictMerge a b` falls back to `a`. -/
theorem dictMerge_lookup_left (a b : Store) (k : String)
    (h : dLookup b k = none) : dLookup (dictMerge a b) k = dLookup a k := by
  induction a with
  | nil =>
      show dLookup (List.filter _ [] ++ b) k = dLookup [] k
      simpa [dLookup] using h
  | cons p as ih =>
      show dLookup (List.filter _ (p :: as) ++ b) k = dLookup (p :: as) k
      rw [List.filter_cons]
      by_cases hpk : p.1 = k
      · have hkeep : ((dLookup b p.1).isNone : Bool) = true := by rw [hpk, h]; rfl
        rw [if_pos hkeep]
        show dLookup (p :: (List.filter _ as ++ b)) k = dLookup (p :: as) k
        unfold dLookup
        rw [List.find?_cons_of_pos _ (by simpa using hpk),
          List.find?_cons_of_pos _ (by simpa using hpk)]
      · have hfind : ∀ l : Store, dLookup (p :: l) k = dLookup l k := by
          intro l
          unfold dLookup
          rw [List.find?_cons_of_neg _ (by simpa using hpk)]
        by_cases hkeep : ((dLookup b p.1).isNone : Bool) = true
        · rw [if_pos hkeep]
          rw [show (p :: (List.filter _ as)) ++ b = p :: (List.filter _ as ++ b) from rfl]
          rw [hfind, hfind]
          exact ih
        · rw [if_neg hkeep, hfind]
          exact ih

/-- Lookup of a `cInsert`ed config at a different key is unchanged. -/
theorem cLookup_cInsert_ne (c : Config) (key k : String) (v : PVal)
    (h : k ≠ key) : cLookup (cInsert c key v) k = cLookup c k := by
  induction c with
  | nil =>
      show cLookup (List.filter _ [] ++ [(key, v)]) k = cLookup [] k
      unfold cLookup
      rw [List.filter_nil, List.nil_append,
        List.find?_cons_of_neg _ (by simpa using Ne.symm h), List.find?_nil]
  | cons p cs ih =>
      show cLookup (List.filter _ (p :: cs) ++ [(key, v)]) k = cLookup (p :: cs) k
      rw [List.filter_cons]
      by_cases hpk : p.1 = k
      · have hkeep : (decide (p.1 ≠ key) : Bool) = true := by
          simp only [decide_eq_true_iff]
          rw [hpk]; exact h
        rw [if_pos hkeep]
        show cLookup (p :: (List.filter _ cs ++ [(key, v)])) k = cLookup (p :: cs) k
        unfold cLookup
        rw [List.find?_cons_of_pos _ (by simpa using hpk),
          List.find?_cons_of_pos _ (by simpa using hpk)]
      · have hfind : ∀ l : Config, cLookup (p :: l) k = cLookup l k := by
          intro l
          unfold cLookup
          rw [List.find?_cons_of_neg _ (by simpa using hpk)]
        by_cases hkeep : (decide (p.1 ≠ key) : Bool) = true
        · rw [if_pos hkeep]
          rw [show (p :: (List.filter _ cs)) ++ [(key, v)] = p :: (List.filter _ cs ++ [(key, v)]) from rfl]
          rw [hfind, hfind]
          exact ih
        · rw [if_neg hkeep, hfind]
          exact ih

/-- Lookup in the prefix-filtered coerced config agrees with the coerced
lookup in the merged environment, for prefixed keys. -/
theorem resolveConfig_lookup (envPref : String) (fileStore procEnviron : Store)
    (k : String) (hk : strStartsWith k envPref = true) :
    cLookup (resolveProviderConfig envPref fileStore procEnviron) k =
      (dLookup (allEnvVars fileStore procEnviron) k).map coerceEnvValue := by
  show cLookup (List.filterMap _ (allEnvVars fileStore procEnviron)) k = _
  generalize allEnvVars fileStore procEnviron = l
  induction l with
  | nil => rfl
  | cons p ls ih =>
      rw [List.filterMap_cons]
      by_cases hpk : p.1 = k
      · have hkeepEq : (if strStartsWith p.1 envPref then some (p.1, coerceEnvValue p.2) else none) =
            some (p.1, coerceEnvValue p.2) := by
          rw [if_pos]; rw [hpk]; exact hk
        rw [hkeepEq]
        unfold cLookup dLookup
        rw [List.find?_cons_of_pos _ (by simpa using hpk),
          List.find?_cons_of_pos _ (by simpa using hpk)]
        rfl
      · have hfind : ∀ l' : Store, dLookup (p :: l') k = dLookup l' k := by
          intro l'
          unfold dLookup
          rw [List.find?_cons_of_neg _ (by simpa using hpk)]
        by_cases hsw : (strStartsWith p.1 envPref : Bool) = true
        · rw [if_pos hsw]
          have hfindC : ∀ l' : Config, cLookup ((p.1, coerceEnvValue p.2) :: l') k = cLookup l' k := by
            intro l'
            unfold cLookup
            rw [List.find?_cons_of_neg _ (by simpa using hpk)]
          rw [hfindC, hfind]
          exact ih
        · rw [if_neg hsw, hfind]
          exact ih

/-- The last element of a list followed by a cons is the last of the tail
when the tail's last is known. -/
theorem getLast?_cons_of_some {α : Type} (x : α) (l : List α) (a : α)
    (h : l.getLast? = some a) : (x :: l).getLast? = some a := by
  cases l with
  | nil => simp at h
  | cons y ys => rw [List.getLast?_cons_cons]; exact h

/-- The last element of `l1 ++ l2` is the last of `l2` when known. -/
theorem getLast?_prepend {α : Type} (l1 l2 : List α) (a : α)
    (h : l2.getLast? = some a) : (l1 ++ l2).getLast? = some a := by
  induction l1 with
  | nil => simpa
  | cons x xs ih =>
      rw [List.cons_append]
      exact getLast?_cons_of_some _ _ _ ih

/-! ## Claim C3 -/

/-- C3 counterexample: `get_handler` merges via
`\x7b**dotenv_values(...), **os.environ\x7d`, so for a key present in both
the **process environment** value — not the `.env` file value — is used, and
the instantiated handler sees the process value.  The claim states the
opposite precedence. -/
theorem c3_file_wins_counterexample :
    dLookup (allEnvVars [("DEEPSEEK_API_KEY", "file-key")] [("DEEPSEEK_API_KEY", "proc-key")])
        "DEEPSEEK_API_KEY" = some "proc-key" ∧
    (some "proc-key" : Option String) ≠ some "file-key" ∧
    moduleGetHandler (registerProviders [("deepseek_ai", [], some "DEEPSEEK_")])
        [("DEEPSEEK_API_KEY", "file-key")] [("DEEPSEEK_API_KEY", "proc-key")]
        Except.ok "deepseek_ai" =
      .ok (some [("DEEPSEEK_API_KEY", PVal.str "proc-key"),
                 ("provider_name", PVal.str "deepseek_ai")]) := by
  refine ⟨by decide, by decide, by decide⟩

/-- C3 (amended): `get_handler` merges the `.env` store with the process
environment such that for every key present in both the **process
environment** value is used (the file value is overridden), and a key
absent from the process environment falls back to the file value; the
store passed to the merge is whatever is read from the `.env` file at call
time (see C6 for freshness). -/
theorem c3_merge_precedence (fileStore procEnviron : Store) (k : String) :
    (∀ v, dLookup procEnviron k = some v →
        dLookup (allEnvVars fileStore procEnviron) k = some v) ∧
    (dLookup procEnviron k = none →
        dLookup (allEnvVars fileStore procEnviron) k = dLookup fileStore k) := by
  constructor
  · intro v hv
    exact dictMerge_lookup_right fileStore procEnviron k v hv
  · intro hn
    exact dictMerge_lookup_left fileStore procEnviron k hn

/-- C3 witness: the merge precedence evaluated at a concrete pair of
stores. -/
theorem c3_merge_precedence_witness :
    dLookup (allEnvVars [("A", "f1"), ("B", "f2")] [("B", "p2")]) "B" = some "p2" ∧
    dLookup (allEnvVars [("A", "f1"), ("B", "f2")] [("B", "p2")]) "A" = some "f1" := by
  constructor
  · exact (c3_merge_precedence [("A", "f1"), ("B", "f2")] [("B", "p2")] "B").1 "p2" (by decide)
  · have h := (c3_merge_precedence [("A", "f1"), ("B", "f2")] [("B", "p2")] "A").2 (by decide)
    rw [h]; decide

/-! ## Claim C4 -/

/-- C4 counterexample: the normalization in
`standardize_provider_name` **removes** spaces (`.replace(" ", "")`) rather
than replacing them with underscores as the claim states; consequently an
input with a space fails to resolve a registered alias that the claimed
normalization would reach. -/
theorem c4_space_normalization_counterexample :
    normalizeName "a b" = "ab" ∧
    specNormalizeName "a b" = "a_b" ∧
    normalizeName "a b" ≠ specNormalizeName "a b" ∧
    standardize_provider_name (registerProviders [("prov", ["a_b"], some "P_")]) "a b" =
      .error ⟨.valueError, "unknown provider: a b"⟩ ∧
    aLookup (registerProviders [("prov", ["a_b"], some "P_")]).aliases
        (specNormalizeName "a b") = some "prov" := by
  refine ⟨by decide, by decide, by decide, by decide, by decide⟩

/-- C4 (amended): `standardize_provider_name` first normalizes its input by
lowercasing, **removing** spaces and replacing hyphens with underscores;
for a registered alias entry `A ↦ S` of the alias map and a registered
standard name `S` that is itself in normal form and not remapped by the
alias table, `standardize_provider_name A = standardize_provider_name S = S`;
and any non-empty input whose normalization is neither a registered alias
nor a registered standard name fails with an unknown-provider
`ValueError` rather than returning a guessed value. -/
theorem c4_alias_resolution (st : FactoryState) (A S : String)
    (hA : A ≠ "")
    (hS : S ≠ "")
    (halias : aLookup st.aliases (normalizeName A) = some S)
    (hhand : st.handlers.contains S = true)
    (hnorm : normalizeName S = S)
    (hSalias : aLookup st.aliases S = none ∨ aLookup st.aliases S = some S) :
    standardize_provider_name st A = .ok S ∧
    standardize_provider_name st S = .ok S ∧
    (∀ q, q ≠ "" → aLookup st.aliases (normalizeName q) = none →
        st.handlers.contains (normalizeName q) = false →
        standardize_provider_name st q =
          .error ⟨.valueError, "unknown provider: " ++ q⟩) := by
  refine ⟨?_, ?_, ?_⟩
  · unfold standardize_provider_name
    rw [if_neg hA, halias]
  · unfold standardize_provider_name
    rw [if_neg hS, hnorm]
    rcases hSalias with hs | hs
    · rw [hs]
      simp only [hhand, if_pos]
    · rw [hs]
  · intro q hq hqa hqh
    unfold standardize_provider_name
    rw [if_neg hq, hqa, hqh]
    simp

/-- C4 witness: alias resolution evaluated on a concretely registered
registry. -/
theorem c4_alias_resolution_witness :
    standardize_provider_name
        (registerProviders [("silicon_flow", ["silicon", "SiliconFlow"], some "SILICONFLOW_")])
        "Silicon" = .ok "silicon_flow" ∧
    standardize_provider_name
        (registerProviders [("silicon_flow", ["silicon", "SiliconFlow"], some "SILICONFLOW_")])
        "silicon_flow" = .ok "silicon_flow" ∧
    standardize_provider_name
        (registerProviders [("silicon_flow", ["silicon", "SiliconFlow"], some "SILICONFLOW_")])
        "totally-unknown-vendor" =
      .error ⟨.valueError, "unknown provider: totally-unknown-vendor"⟩ := by
  have h := c4_alias_resolution
    (registerProviders [("silicon_flow", ["silicon", "SiliconFlow"], some "SILICONFLOW_")])
    "Silicon" "silicon_flow" (by decide) (by decide) (by decide) (by decide) (by decide)
    (Or.inl (by decide))
  exact ⟨h.1, h.2.1, h.2.2 "totally-unknown-vendor" (by decide) (by decide) (by decide)⟩

/-! ## Claim C6 -/

/-- C6: every call to `get_handler` constructs its instance from the
coerced, prefix-filtered environment state read **at that call**: for every
store contents, the call returns a fresh instance whose config is exactly
the resolution of that store (plus the injected `provider_name`), so a
mutation of the backing store between two sequential calls is reflected in
the second call's instance — nothing is cached across calls. -/
theorem c6_no_config_caching (st : FactoryState) (procEnviron : Store)
    (name S P : String)
    (hroot : st.projectRoot = true)
    (hstd : (aLookup st.aliases (pyReplace (pyLower name) "-" "_")).getD
        (pyReplace (pyLower name) "-" "_") = S)
    (hhand : st.handlers.contains S = true)
    (hmeta : st.metas.find? (fun m => m.standardName = S) = some ⟨S, some P⟩)
    (hP : P ≠ "") :
    (∀ store : Store,
        moduleGetHandler st store procEnviron Except.ok name =
          .ok (some (cInsert (resolveProviderConfig P store procEnviron)
            "provider_name" (.str S)))) ∧
    (∀ (store : Store) (k v : String),
        strStartsWith k P = true → k ≠ "provider_name" →
        dLookup procEnviron k = none → dLookup store k = some v →
        ∃ cfg, moduleGetHandler st store procEnviron Except.ok name = .ok (some cfg) ∧
          cLookup cfg k = some (coerceEnvValue v)) := by
  have hcall : ∀ store : Store,
      moduleGetHandler st store procEnviron Except.ok name =
        .ok (some (cInsert (resolveProviderConfig P store procEnviron)
          "provider_name" (.str S))) := by
    intro store
    simp only [moduleGetHandler, hroot, hstd, hhand, hmeta, hP, not_true,
      Bool.not_eq_true, if_neg]
    simp [hP]
  refine ⟨hcall, ?_⟩
  intro store k v hk hkp hproc hstore
  refine ⟨cInsert (resolveProviderConfig P store procEnviron) "provider_name" (.str S),
    hcall store, ?_⟩
  rw [cLookup_cInsert_ne _ _ _ _ hkp, resolveConfig_lookup P store procEnviron k hk]
  rw [show allEnvVars store procEnviron = dictMerge store procEnviron from rfl,
    dictMerge_lookup_left store procEnviron k hproc, hstore]
  rfl

/-- C6 witness: mutating the store between two calls changes the second
call's instance configuration accordingly. -/
theorem c6_no_config_caching_witness :
    moduleGetHandler (registerProviders [("deepseek_ai", [], some "DEEPSEEK_")])
        [("DEEPSEEK_TEMPERATURE", "0.7")] [] Except.ok "deepseek_ai" =
      .ok (some [("DEEPSEEK_TEMPERATURE", PVal.float 7 1),
                 ("provider_name", PVal.str "deepseek_ai")]) ∧
    moduleGetHandler (registerProviders [("deepseek_ai", [], some "DEEPSEEK_")])
        [("DEEPSEEK_TEMPERATURE", "0.9")] [] Except.ok "deepseek_ai" =
      .ok (some [("DEEPSEEK_TEMPERATURE", PVal.float 9 1),
                 ("provider_name", PVal.str "deepseek_ai")]) := by
  have h := c6_no_config_caching (registerProviders [("deepseek_ai", [], some "DEEPSEEK_")])
    [] "deepseek_ai" "deepseek_ai" "DEEPSEEK_" (by decide) (by decide) (by decide)
    (by decide) (by decide)
  constructor
  · rw [h.1 [("DEEPSEEK_TEMPERATURE", "0.7")]]; decide
  · rw [h.1 [("DEEPSEEK_TEMPERATURE", "0.9")]]; decide

/-! ## Claim C9 -/

/-- C9: the module-level `get_handler` never raises to its caller: every
execution returns a value (`.ok`), an unresolvable provider name yields
`None`, and a throwing handler constructor also yields `None`. -/
theorem c9_get_handler_never_raises {α : Type} (st : FactoryState)
    (dotenvStore procEnviron : Store) (construct : Config → Except PyExc α)
    (name : String) :
    (∃ r, moduleGetHandler st dotenvStore procEnviron construct name = .ok r) ∧
    (st.handlers.contains
        ((aLookup st.aliases (pyReplace (pyLower name) "-" "_")).getD
          (pyReplace (pyLower name) "-" "_")) = false →
      moduleGetHandler st dotenvStore procEnviron construct name = .ok none) ∧
    ((∀ cfg, ∃ e, construct cfg = .error e) →
      moduleGetHandler st dotenvStore procEnviron construct name = .ok none) := by
  refine ⟨?_, ?_, ?_⟩
  · simp only [moduleGetHandler]
    split
    · exact ⟨none, rfl⟩
    · split
      · exact ⟨none, rfl⟩
      · split
        · exact ⟨none, rfl⟩
        · split
          · exact ⟨some _, rfl⟩
          · exact ⟨none, rfl⟩
  · intro h
    simp only [moduleGetHandler]
    split
    · rfl
    · rw [if_pos (by rw [h]; simp)]
  · intro hc
    simp only [moduleGetHandler]
    split
    · rfl
    · split
      · rfl
      · split
        · rfl
        · split
          · next cfgOk heq =>
              obtain ⟨e, he⟩ := hc _
              rw [he] at heq
              cases heq
          · rfl

/-- C9 witness: an unknown provider name returns `None` without raising. -/
theorem c9_get_handler_never_raises_witness :
    moduleGetHandler (registerProviders [("deepseek_ai", [], some "DEEPSEEK_")])
        [] [] (Except.ok : Config → Except PyExc Config) "totally-unknown-vendor" =
      .ok none :=
  (c9_get_handler_never_raises (registerProviders [("deepseek_ai", [], some "DEEPSEEK_")])
    [] [] Except.ok "totally-unknown-vendor").2.1 (by decide)

/-! ## Claim C5 -/

/-- The effective-parameter computation of `DeepseekAIHandler.generate_text`
(lines 167-176): `final_api_params` starts from `get_current_param` (with
the constructor snapshot as fallback default) and is then overwritten by
any call-site keyword override (`final_api_params.update(kwargs)`). -/
def deepseekEffectiveParam (override : Option PVal) (metaEnvPref : Option String)
    (dotenvStore : Option Store) (param_name : String) (param_type : Option String)
    (ctorDefault : PVal) : PVal :=
  match override with
  | some v => v
  | none => get_current_param metaEnvPref dotenvStore param_name param_type ctorDefault

/-- C5: config resolution precedence for the tunable parameters of
`generate_text` (temperature and top_p resolved with `param_type="float"`,
max_tokens with `param_type="int"`, deepseek_ai.py lines 167-169): a
provided call-site override wins for any parameter type; otherwise the
`.env` store value (under `PFX + NAME`, then `PFX + DEFAULT_NAME`) coerced
per the parameter's type; otherwise the handler default (also for any
type); and a coercion failure of a present value — float or int — falls
back to the default.  The final conjunct ties the handler defaults to the
constructor: the config snapshot value if present, else the hard defaults
0.7 / 1.0 / 2000. -/
theorem c5_param_precedence (override : Option PVal) (envPref : String)
    (store : Store) (name : String) (dflt : PVal) :
    (∀ (ptype : Option String) (v : PVal), override = some v →
        deepseekEffectiveParam override (some envPref) (some store) name
          ptype dflt = v) ∧
    (override = none → envPref ≠ "" → ∀ s,
        (dLookup store (envPref ++ pyUpper name)).orElse
            (fun _ => dLookup store (envPref ++ "DEFAULT_" ++ pyUpper name)) = some s →
        ((∀ q, pyFloat? s = some q →
            deepseekEffectiveParam override (some envPref) (some store) name
              (some "float") dflt = .float q.1 q.2) ∧
         (pyFloat? s = none →
            deepseekEffectiveParam override (some envPref) (some store) name
              (some "float") dflt = dflt) ∧
         (∀ n, pyInt? s = some n →
            deepseekEffectiveParam override (some envPref) (some store) name
              (some "int") dflt = .int n) ∧
         (pyInt? s = none →
            deepseekEffectiveParam override (some envPref) (some store) name
              (some "int") dflt = dflt))) ∧
    (∀ ptype : Option String, override = none → envPref ≠ "" →
        dLookup store (envPref ++ pyUpper name) = none →
        dLookup store (envPref ++ "DEFAULT_" ++ pyUpper name) = none →
        deepseekEffectiveParam override (some envPref) (some store) name
          ptype dflt = dflt) ∧
    (∀ config : Config,
        (mkDeepseekHandler config).dTemperature =
          (cLookup config "DEEPSEEK_TEMPERATURE").getD (.float 7 1) ∧
        (mkDeepseekHandler config).dTopP =
          (cLookup config "DEEPSEEK_TOP_P").getD (.float 10 1) ∧
        (mkDeepseekHandler config).dMaxTokens =
          (cLookup config "DEEPSEEK_MAX_TOKENS").getD (.int 2000)) := by
  refine ⟨?_, ?_, ?_, ?_⟩
  · intro ptype v hv
    simp only [deepseekEffectiveParam, hv]
  · intro ho hp s hs
    refine ⟨?_, ?_, ?_, ?_⟩
    · intro q hq
      simp only [deepseekEffectiveParam, ho, get_current_param, if_neg hp, hs, hq]
    · intro hq
      simp only [deepseekEffectiveParam, ho, get_current_param, if_neg hp, hs, hq]
    · intro n hn
      simp only [deepseekEffectiveParam, ho, get_current_param, if_neg hp, hs, hn]
    · intro hn
      simp only [deepseekEffectiveParam, ho, get_current_param, if_neg hp, hs, hn]
  · intro ptype ho hp h1 h2
    simp only [deepseekEffectiveParam, ho, get_current_param, if_neg hp, h1, h2,
      Option.orElse]
  · intro config
    exact ⟨rfl, rfl, rfl⟩

/-- C5 witness: precedence evaluated at concrete stores and overrides, for
both the float-typed parameters (temperature) and the int-typed parameter
(max_tokens). -/
theorem c5_param_precedence_witness :
    deepseekEffectiveParam (some (.float 3 1)) (some "DEEPSEEK_")
        (some [("DEEPSEEK_TEMPERATURE", "0.9")]) "temperature" (some "float")
        (.float 7 1) = .float 3 1 ∧
    deepseekEffectiveParam none (some "DEEPSEEK_")
        (some [("DEEPSEEK_TEMPERATURE", "0.9")]) "temperature" (some "float")
        (.float 7 1) = .float 9 1 ∧
    deepseekEffectiveParam none (some "DEEPSEEK_")
        (some [("DEEPSEEK_DEFAULT_TEMPERATURE", "0.8")]) "temperature" (some "float")
        (.float 7 1) = .float 8 1 ∧
    deepseekEffectiveParam none (some "DEEPSEEK_") (some []) "temperature"
        (some "float") (.float 7 1) = .float 7 1 ∧
    deepseekEffectiveParam none (some "DEEPSEEK_")
        (some [("DEEPSEEK_TEMPERATURE", "not-a-number")]) "temperature" (some "float")
        (.float 7 1) = .float 7 1 ∧
    deepseekEffectiveParam (some (.int 512)) (some "DEEPSEEK_")
        (some [("DEEPSEEK_MAX_TOKENS", "4096")]) "max_tokens" (some "int")
        (.int 2000) = .int 512 ∧
    deepseekEffectiveParam none (some "DEEPSEEK_")
        (some [("DEEPSEEK_MAX_TOKENS", "4096")]) "max_tokens" (some "int")
        (.int 2000) = .int 4096 ∧
    deepseekEffectiveParam none (some "DEEPSEEK_")
        (some [("DEEPSEEK_DEFAULT_MAX_TOKENS", "1024")]) "max_tokens" (some "int")
        (.int 2000) = .int 1024 ∧
    deepseekEffectiveParam none (some "DEEPSEEK_") (some []) "max_tokens"
        (some "int") (.int 2000) = .int 2000 ∧
    deepseekEffectiveParam none (some "DEEPSEEK_")
        (some [("DEEPSEEK_MAX_TOKENS", "lots")]) "max_tokens" (some "int")
        (.int 2000) = .int 2000 := by
  refine ⟨?_, ?_, ?_, ?_, ?_, ?_, ?_, ?_, ?_, ?_⟩
  · exact (c5_param_precedence (some (.float 3 1)) "DEEPSEEK_"
      [("DEEPSEEK_TEMPERATURE", "0.9")] "temperature" (.float 7 1)).1 (some "float") _ rfl
  · exact ((c5_param_precedence none "DEEPSEEK_" [("DEEPSEEK_TEMPERATURE", "0.9")]
      "temperature" (.float 7 1)).2.1 rfl (by decide) "0.9" (by decide)).1 (9, 1) (by decide)
  · exact ((c5_param_precedence none "DEEPSEEK_" [("DEEPSEEK_DEFAULT_TEMPERATURE", "0.8")]
      "temperature" (.float 7 1)).2.1 rfl (by decide) "0.8" (by decide)).1 (8, 1) (by decide)
  · exact (c5_param_precedence none "DEEPSEEK_" [] "temperature" (.float 7 1)).2.2.1
      (some "float") rfl (by decide) (by decide) (by decide)
  · exact ((c5_param_precedence none "DEEPSEEK_" [("DEEPSEEK_TEMPERATURE", "not-a-number")]
      "temperature" (.float 7 1)).2.1 rfl (by decide) "not-a-number" (by decide)).2.1 (by decide)
  · exact (c5_param_precedence (some (.int 512)) "DEEPSEEK_"
      [("DEEPSEEK_MAX_TOKENS", "4096")] "max_tokens" (.int 2000)).1 (some "int") _ rfl
  · exact ((c5_param_precedence none "DEEPSEEK_" [("DEEPSEEK_MAX_TOKENS", "4096")]
      "max_tokens" (.int 2000)).2.1 rfl (by decide) "4096" (by decide)).2.2.1 4096 (by decide)
  · exact ((c5_param_precedence none "DEEPSEEK_" [("DEEPSEEK_DEFAULT_MAX_TOKENS", "1024")]
      "max_tokens" (.int 2000)).2.1 rfl (by decide) "1024" (by decide)).2.2.1 1024 (by decide)
  · exact (c5_param_precedence none "DEEPSEEK_" [] "max_tokens" (.int 2000)).2.2.1
      (some "int") rfl (by decide) (by decide) (by decide)
  · exact ((c5_param_precedence none "DEEPSEEK_" [("DEEPSEEK_MAX_TOKENS", "lots")]
      "max_tokens" (.int 2000)).2.1 rfl (by decide) "lots" (by decide)).2.2.2 (by decide)

/-! ## Claim C10 -/

/-- C10: for `param_type='bool'`, `get_current_param` never falls back to
the supplied default when a value is present: it returns `True` exactly
when the lowercased stored value is one of `true`, `1`, `yes`, `y`, `on`
and `False` for every other string; the default is returned only when
neither `PFX + NAME` nor `PFX + DEFAULT_NAME` is present, or the `.env`
file cannot be located. -/
theorem c10_bool_param_no_default (envPref : String) (store : Store)
    (name : String) (dflt : PVal) :
    (envPref ≠ "" → ∀ v,
        (dLookup store (envPref ++ pyUpper name)).orElse
            (fun _ => dLookup store (envPref ++ "DEFAULT_" ++ pyUpper name)) = some v →
        get_current_param (some envPref) (some store) name (some "bool") dflt =
          .bool (["true", "1", "yes", "y", "on"].contains (pyLower v))) ∧
    (envPref ≠ "" →
        dLookup store (envPref ++ pyUpper name) = none →
        dLookup store (envPref ++ "DEFAULT_" ++ pyUpper name) = none →
        get_current_param (some envPref) (some store) name (some "bool") dflt = dflt) ∧
    (get_current_param (some envPref) none name (some "bool") dflt = dflt) := by
  refine ⟨?_, ?_, ?_⟩
  · intro hp v hv
    simp only [get_current_param, if_neg hp, hv]
  · intro hp h1 h2
    simp only [get_current_param, if_neg hp, h1, h2, Option.orElse]
  · by_cases hp : envPref = ""
    · simp only [get_current_param, if_pos hp]
    · simp only [get_current_param, if_neg hp]

/-- C10 witness: a present value that is in the truthy set yields `True`, a
present value outside it yields `False` (not the default), and an absent
value yields the default. -/
theorem c10_bool_param_no_default_witness :
    get_current_param (some "OLLAMA_") (some [("OLLAMA_VERBOSE", "on")]) "verbose"
        (some "bool") (.str "fallback") = .bool true ∧
    get_current_param (some "OLLAMA_") (some [("OLLAMA_VERBOSE", "maybe")]) "verbose"
        (some "bool") (.str "fallback") = .bool false ∧
    get_current_param (some "OLLAMA_") (some []) "verbose"
        (some "bool") (.str "fallback") = .str "fallback" := by
  refine ⟨?_, ?_, ?_⟩
  · have h := (c10_bool_param_no_default "OLLAMA_" [("OLLAMA_VERBOSE", "on")] "verbose"
      (.str "fallback")).1 (by decide) "on" (by decide)
    rw [h]; decide
  · have h := (c10_bool_param_no_default "OLLAMA_" [("OLLAMA_VERBOSE", "maybe")] "verbose"
      (.str "fallback")).1 (by decide) "maybe" (by decide)
    rw [h]; decide
  · exact (c10_bool_param_no_default "OLLAMA_" [] "verbose" (.str "fallback")).2.1
      (by decide) (by decide) (by decide)

/-! ## Claim C7 -/

/-- C7 counterexample: the regex `<think>.*?</think>\s*` needs a literal
closing tag to match, so an opening `<think>` with no `</think>` anywhere
after it is **left intact** — `chat` returns the text unchanged, not the
empty string the claim asserts. -/
theorem c7_unclosed_think_counterexample :
    ollamaReportChat (Jv.obj
        [("message", Jv.obj [("role", Jv.str "assistant"),
            ("content", Jv.str "<think>unclosed reasoning continues forever")]),
         ("done", Jv.bool true)]) =
      .ok ⟨"assistant", "<think>unclosed reasoning continues forever", "stop", 0, 0, 0⟩ ∧
    removeThinkTags "<think>unclosed reasoning continues forever" =
      "<think>unclosed reasoning continues forever" ∧
    "<think>unclosed reasoning continues forever" ≠ "" := by
  refine ⟨by decide, by decide, by decide⟩

/-- C7 (amended): the specialized Ollama report handler's chat strips a
provider-injected closed `<think>...</think>` block (non-greedy, including
trailing whitespace) from the returned content — for
`"<think>internal reasoning</think>Actual answer"` it returns exactly
`"Actual answer"` — but an opening tag with **no** closing tag matches
nothing and the content is returned unchanged apart from outer whitespace
trimming (not stripped to the empty string). -/
theorem c7_think_tag_stripping :
    ollamaReportChat (Jv.obj
        [("message", Jv.obj [("role", Jv.str "assistant"),
            ("content", Jv.str "<think>internal reasoning</think>Actual answer")]),
         ("done", Jv.bool true)]) =
      .ok ⟨"assistant", "Actual answer", "stop", 0, 0, 0⟩ ∧
    removeThinkTags "<think>internal reasoning</think>Actual answer" = "Actual answer" ∧
    removeThinkTags "<think>a</think>  <think>multi\nline</think>tail" = "tail" ∧
    ollamaReportChat (Jv.obj
        [("message", Jv.obj [("role", Jv.str "assistant"),
            ("content", Jv.str "<think>unclosed reasoning continues forever")]),
         ("done", Jv.bool true)]) =
      .ok ⟨"assistant", "<think>unclosed reasoning continues forever", "stop", 0, 0, 0⟩ := by
  refine ⟨by decide, by decide, by decide, by decide⟩

/-! ## Claim C2 -/

/-- C2: evaluating the retried request at the claim's failing input — a
transport that raises `aiohttp.ClientConnectorError` on every attempt.
The `except` clause attempts
`APIConnectionError(message=..., detail=..., provider=...)`, whose
`__init__` accepts only `provider_name`/`details`, so the attempt outcome
is a `TypeError`; tenacity's `retry=` callable receives the
`RetryCallState` (for which `is_retryable_exception` answers `false`), so
exactly **one** attempt is performed — not the 3 the claim states — and
`generate_text` surfaces a generic `APIError` wrapping the `TypeError`,
not one referencing the connection failure. -/
theorem c2_retry_bound_code_bug :
    (deepseekGenerateText
        (mkDeepseekHandler [("DEEPSEEK_API_KEY", PVal.str "sk-test"),
          ("DEEPSEEK_DEFAULT_MODEL", PVal.str "deepseek-chat"),
          ("provider_name", PVal.str "deepseek_ai")])
        (fun _ => .connectorError "Connection refused") "") =
      (.error ⟨.apiError,
         "Unexpected internal error: TypeError: unexpected keyword argument message"⟩, 1) ∧
    (deepseekGenerateText
        (mkDeepseekHandler [("DEEPSEEK_API_KEY", PVal.str "sk-test"),
          ("DEEPSEEK_DEFAULT_MODEL", PVal.str "deepseek-chat"),
          ("provider_name", PVal.str "deepseek_ai")])
        (fun _ => .connectorError "Connection refused") "").2 ≠ 3 ∧
    is_retryable_exception (.callState ⟨.clientConnectorError, "Connection refused"⟩) = false ∧
    is_retryable_exception (.excV ⟨.apiConnectionError, "conn"⟩) = false := by
  refine ⟨by decide, by decide, by decide, by decide⟩

/-! ## Claim C8 -/

/-- C8: evaluating the retried request at the claim's failing input — an
HTTP 200 response whose body `"not json"` fails JSON decoding.  Exactly one
attempt occurs (that half of the claim holds), but the raise of
`APIResponseFormatError(message=..., response_body=..., provider=...)`
itself fails with `TypeError` because the `__init__` accepts none of those
keywords, so the adapter does not surface a malformed-response error
carrying the raw body; `generate_text` wraps the `TypeError` into a generic
`APIError`. -/
theorem c8_malformed_json_code_bug :
    (deepseekMakeRequest
        (mkDeepseekHandler [("DEEPSEEK_API_KEY", PVal.str "sk-test"),
          ("provider_name", PVal.str "deepseek_ai")])
        (fun _ => .resp 200 "not json" none)) =
      (.error ⟨.typeError, "TypeError: unexpected keyword argument message"⟩, 1) ∧
    (∀ e, (deepseekMakeRequest
        (mkDeepseekHandler [("DEEPSEEK_API_KEY", PVal.str "sk-test"),
          ("provider_name", PVal.str "deepseek_ai")])
        (fun _ => .resp 200 "not json" none)).1 = .error e →
      e.cls ≠ .apiResponseFormatError) ∧
    (deepseekGenerateText
        (mkDeepseekHandler [("DEEPSEEK_API_KEY", PVal.str "sk-test"),
          ("DEEPSEEK_DEFAULT_MODEL", PVal.str "deepseek-chat"),
          ("provider_name", PVal.str "deepseek_ai")])
        (fun _ => .resp 200 "not json" none) "") =
      (.error ⟨.apiError,
         "Unexpected internal error: TypeError: unexpected keyword argument message"⟩, 1) := by
  refine ⟨by rfl, ?_, by decide⟩
  intro e he
  have : e = ⟨.typeError, "TypeError: unexpected keyword argument message"⟩ := by
    have h1 : (deepseekMakeRequest
        (mkDeepseekHandler [("DEEPSEEK_API_KEY", PVal.str "sk-test"),
          ("provider_name", PVal.str "deepseek_ai")])
        (fun _ => .resp 200 "not json" none)).1 =
        .error ⟨.typeError, "TypeError: unexpected keyword argument message"⟩ := by rfl
    rw [h1] at he
    cases he
    rfl
  rw [this]
  decide

/-! ## Claim C1 -/

/-- If a `data: [DONE]` line is among the delivered lines, the SiliconFlow
body loop breaks there and the last yielded item is the done marker. -/
theorem sfProcessLines_mem_done (lines : List SFLine) (h : SFLine.doneL ∈ lines) :
    (sfProcessLines lines).2 = true ∧
    (sfProcessLines lines).1.getLast? = some sfDoneMarker := by
  induction lines with
  | nil => cases h
  | cons l rest ih =>
      cases l with
      | empty =>
          have h' : SFLine.doneL ∈ rest := by cases h with | tail _ h' => exact h'
          simpa only [sfProcessLines] using ih h'
      | nonData s =>
          have h' : SFLine.doneL ∈ rest := by cases h with | tail _ h' => exact h'
          simpa only [sfProcessLines] using ih h'
      | doneL => exact ⟨rfl, rfl⟩
      | dataJ j =>
          have h' : SFLine.doneL ∈ rest := by cases h with | tail _ h' => exact h'
          obtain ⟨h1, h2⟩ := ih h'
          refine ⟨by simpa only [sfProcessLines] using h1, ?_⟩
          simp only [sfProcessLines]
          exact getLast?_cons_of_some _ _ _ h2
      | dataBad s =>
          have h' : SFLine.doneL ∈ rest := by cases h with | tail _ h' => exact h'
          simpa only [sfProcessLines] using ih h'

/-- C1 counterexample: a SiliconFlow stream that hits a vendor error
(HTTP 500) yields **nothing** and terminates by raising a wrapped generic
`APIError` — no done marker, no error chunk — and the Ollama stream with no
resolvable model terminates by raising `ConfigurationError` before its
first yield.  Both contradict the claim that every execution path of every
adapter's `stream_chat` ends with a terminal marker as the last yielded
item and never ends by raising. -/
theorem c1_stream_termination_counterexample :
    siliconFlowStreamChat "https://api.siliconflow.com/v1" "deepseek-chat" ""
        (.resp 500 "server exploded" [] none) =
      ([], some ⟨.apiError, "Unexpected streaming error: Stream chat error: HTTP 500"⟩) ∧
    (siliconFlowStreamChat "https://api.siliconflow.com/v1" "deepseek-chat" ""
        (.resp 500 "server exploded" [] none)).1.getLast? = none ∧
    ollamaStreamChat "" "" (.connError "refused") =
      ([], some ⟨.configurationError,
         "No model specified and no default_model configured for ollama_local."⟩) := by
  refine ⟨by rfl, by rfl, by rfl⟩

/-- C1 (amended): the termination invariant holds for the Ollama local
adapter — once a model is resolvable, every execution path (success, vendor
error, connection error, mid-stream exception) yields the
`\x7b"done": True\x7d` marker as its **last yielded item**, even when an
exception then propagates — whereas the SiliconFlow adapter yields its
`\x7b"status": "done"\x7d` marker (as last item) exactly on 200 streams
that deliver a `data: [DONE]` line; its error paths raise without a
terminal marker (see the counterexample). -/
theorem c1_stream_termination_amended :
    (∀ (defaultModel modelArg : String) (t : OTransport),
        pyStrip (pyOrS modelArg defaultModel) ≠ "" →
        ((ollamaStreamChat defaultModel modelArg t).1 ≠ [] ∧
         (ollamaStreamChat defaultModel modelArg t).1.getLast? = some ollamaDoneMarker)) ∧
    (∀ (endpoint defaultModel modelArg errText : String) (lines : List SFLine)
        (interrupt : Option SFInterrupt),
        pyStrip (pyOrS modelArg defaultModel) ≠ "" → endpoint ≠ "" →
        SFLine.doneL ∈ lines →
        (siliconFlowStreamChat endpoint defaultModel modelArg
            (.resp 200 errText lines interrupt)).1.getLast? = some sfDoneMarker) := by
  constructor
  · intro defaultModel modelArg t hm
    cases t with
    | connError m =>
        simp only [ollamaStreamChat, if_neg hm]
        exact ⟨by simp, rfl⟩
    | resp status errText lines interrupt =>
        simp only [ollamaStreamChat, if_neg hm]
        by_cases hst : status ≠ 200
        · rw [if_pos hst]
          exact ⟨by simp, rfl⟩
        · rw [if_neg hst]
          cases interrupt with
          | none =>
              refine ⟨by simp, ?_⟩
              exact getLast?_prepend _ [ollamaDoneMarker] _ rfl
          | some i =>
              cases i with
              | clientErr m =>
                  refine ⟨by simp, ?_⟩
                  exact getLast?_prepend _ [errObj _, ollamaDoneMarker] _ rfl
              | otherE e =>
                  refine ⟨by simp, ?_⟩
                  exact getLast?_prepend _ [ollamaDoneMarker] _ rfl
  · intro endpoint defaultModel modelArg errText lines interrupt hm he hmem
    obtain ⟨h2, hl⟩ := sfProcessLines_mem_done lines hmem
    simp only [siliconFlowStreamChat, if_neg hm, if_neg he]
    rw [if_neg (by simp)]
    simp only [h2, if_true]
    exact hl

/-- C1 witness: the amended invariant evaluated on concrete transcripts. -/
theorem c1_stream_termination_witness :
    (ollamaStreamChat "llama3" "" (.connError "refused")).1.getLast? =
      some ollamaDoneMarker ∧
    (siliconFlowStreamChat "https://api.siliconflow.com/v1" "m" ""
        (.resp 200 "" [SFLine.dataJ (Jv.str "c1"), SFLine.doneL] none)).1.getLast? =
      some sfDoneMarker := by
  constructor
  · exact ((c1_stream_termination_amended).1 "llama3" "" (.connError "refused")
      (by decide)).2
  · exact (c1_stream_termination_amended).2 "https://api.siliconflow.com/v1" "m" "" ""
      [SFLine.dataJ (Jv.str "c1"), SFLine.doneL] none (by decide) (by decide)
      (List.Mem.tail _ (List.Mem.head _))
